import Mathlib

/-!
Verification of the Seaward PAT decoding tools (`gar.py` container extractor
and `portableappliancetest.py` telemetry stream decoder) against their design
specification.  The Python sources are shallowly embedded: byte strings become
`List Nat`, machine integers become `Nat` (with explicit masking where the
source masks), the xorshift generator becomes explicit state passing, and
fallible decoding returns `Except`.
-/

namespace Pat

/-! ## gar.py: Marsaglia xorshift keystream and container record decoding -/

/-- The 128-bit xorshift generator state `(x, y, z, w)` of
`marsaglia_xorshift_128` in gar.py. -/
structure XState where
  x : Nat
  y : Nat
  z : Nat
  w : Nat
deriving DecidableEq

/-- One step of `marsaglia_xorshift_128`: `t = (x ^ (x << 11)) & 0xffffffff`,
the words shift down `x, y, z := y, z, w`, and
`w = w ^ (w >> 19) ^ (t ^ (t >> 8))` (the source applies no mask to `w`). -/
def xorshiftStep (s : XState) : XState :=
  let t := (s.x ^^^ (s.x <<< 11)) &&& 0xffffffff
  { x := s.y, y := s.z, z := s.w, w := s.w ^^^ (s.w >>> 19) ^^^ (t ^^^ (t >>> 8)) }

/-- Generator state after `n` steps. -/
def ksState (s : XState) : Nat → XState
  | 0 => s
  | n + 1 => xorshiftStep (ksState s n)

/-- The `i`-th (0-based) value yielded by the generator: each `pnr.next()`
advances the state once and yields the new `w`. -/
def ksOut (s : XState) (i : Nat) : Nat := (ksState s (i + 1)).w

/-- The cipher state built in `gar_extract`:
`marsaglia_xorshift_128(x = truncated_timestamp, y = original_length)`, with
`z` and `w` keeping the source's default constants. -/
def mkCipher (t n : Nat) : XState :=
  { x := t, y := n, z := 521288629, w := 88675123 }

/-- `deobfuscate_string` of gar.py: combine each data byte with the next
generator output via `op` (addition on insertion, subtraction on extraction),
keep the low 8 bits, and return the advanced generator state together with
the transformed bytes, so that a second call continues the same keystream. -/
def applyStream (op : Int → Int → Int) : XState → List Nat → XState × List Nat
  | s, [] => (s, [])
  | s, c :: cs =>
    let s1 := xorshiftStep s
    let r := applyStream op s1 cs
    (r.1, (op (c : Int) (s1.w : Int) % 256).toNat :: r.2)

/-- Masking (insertion direction): bytes are perturbed by adding keystream
values modulo 256. -/
def maskString (s : XState) (l : List Nat) : List Nat :=
  (applyStream (· + ·) s l).2

/-- Unmasking (extraction direction, the default `int.__sub__` operation):
bytes are perturbed by subtracting keystream values modulo 256. -/
def unmaskString (s : XState) (l : List Nat) : List Nat :=
  (applyStream (· - ·) s l).2

/-- Big-endian interpretation of a byte list, as `struct.unpack` with format
characters `B`, `H`, `L` on the `>` byte order does. -/
def beNat (l : List Nat) : Nat := l.foldl (fun a b => a * 256 + b) 0

/-- Container decoding errors of `gar_extract` (spec section 7). -/
inductive GarError where
  | truncatedRecord
  | malformedHeader
  | lengthMismatch
deriving DecidableEq

/-- The per-record payload handling of `gar_extract` (gar.py lines 127-140):
parse the 12-byte sub-header, seed the cipher from the timestamp and original
length, unmask the 4-byte duplicate length and then the remaining bytes with
the same generator instance, and check the duplicate length.  Decompression
is the trusted external primitive and is not modelled. -/
def garDecodeRecord (contents : List Nat) : Except GarError (List Nat) :=
  if contents.length < 12 then .error .truncatedRecord
  else
    let header_length := beNat (contents.take 2)
    let mangling_method := beNat ((contents.drop 2).take 2)
    let truncated_timestamp := beNat ((contents.drop 4).take 4)
    let original_length := beNat ((contents.drop 8).take 4)
    if header_length = 12 ∧ mangling_method = 1 then
      if contents.length < 16 then .error .truncatedRecord
      else
        let pnr := mkCipher truncated_timestamp original_length
        let r1 := applyStream (· - ·) pnr ((contents.drop 12).take 4)
        let r2 := applyStream (· - ·) r1.1 (contents.drop 16)
        let expected_length := beNat r1.2
        if original_length = expected_length then .ok r2.2
        else .error .lengthMismatch
    else .error .malformedHeader

/-- Reference unmasking used to state the claims: byte `i` of `l` is unmasked
with keystream output number `k + i` of the generator started at `s`. -/
def subKS (s : XState) : Nat → List Nat → List Nat
  | _, [] => []
  | k, c :: cs => (((c : Int) - (ksOut s k : Int)) % 256).toNat :: subKS s (k + 1) cs

/-- The xorshift step exactly as the specification words it: all arithmetic
modulo `2 ^ 32`, including the final `w`. -/
def xorshiftSpecStep (s : XState) : XState :=
  let t := (s.x ^^^ (s.x <<< 11)) % 2 ^ 32
  { x := s.y, y := s.z, z := s.w,
    w := (s.w ^^^ (s.w >>> 19) ^^^ (t ^^^ (t >>> 8))) % 2 ^ 32 }

/-! ### Generator helper lemmas -/

theorem and_mask32 (a : Nat) : a &&& 0xffffffff = a % 2 ^ 32 := by
  have h := Nat.and_pow_two_sub_one_eq_mod a 32
  norm_num at h ⊢
  exact h

theorem shiftRight_lt_two_pow {a k n : Nat} (h : a < 2 ^ n) : a >>> k < 2 ^ n :=
  lt_of_le_of_lt (by rw [Nat.shiftRight_eq_div_pow]; exact Nat.div_le_self _ _) h

theorem ksState_add (s : XState) (m n : Nat) :
    ksState s (m + n) = ksState (ksState s m) n := by
  induction n with
  | zero => rfl
  | succ k ih => simp [ksState, ih]

theorem ksOut_shift (s : XState) (m i : Nat) :
    ksOut (ksState s m) i = ksOut s (m + i) := by
  unfold ksOut
  rw [← ksState_add, Nat.add_assoc]

theorem subKS_shift (s : XState) (m : Nat) :
    ∀ (k : Nat) (l : List Nat), subKS (ksState s m) k l = subKS s (m + k) l := by
  intro k l
  induction l generalizing k with
  | nil => rfl
  | cons c cs ih =>
    simp only [subKS, ksOut_shift, ih]
    rw [Nat.add_assoc]

theorem applyStream_fst (op : Int → Int → Int) (s : XState) (l : List Nat) :
    (applyStream op s l).1 = ksState s l.length := by
  induction l generalizing s with
  | nil => rfl
  | cons c cs ih =>
    simp only [applyStream, ih, List.length_cons]
    rw [show cs.length + 1 = 1 + cs.length by omega, ksState_add]
    rfl

theorem applyStream_sub_snd (s : XState) (l : List Nat) :
    (applyStream (· - ·) s l).2 = subKS s 0 l := by
  induction l generalizing s with
  | nil => rfl
  | cons c cs ih =>
    simp only [applyStream, subKS, ih]
    have h1 : subKS s (0 + 1) cs = subKS (xorshiftStep s) 0 cs := by
      have h := subKS_shift s 1 0 cs
      simpa [ksState] using h.symm
    rw [h1]
    rfl

/-! ### Claim theorems for the cipher -/

/-- C2: the keystream generator agrees with the 128-bit Marsaglia xorshift
reference definition: on any state of 32-bit words one source step equals the
specification step (with its explicit modulo `2 ^ 32` on `w`), the generator
output is the new `w`, and an un-seeded `z` and `w` start as 521288629 and
88675123. -/
theorem xorshift_matches_reference (s : XState) (t n : Nat)
    (hx : s.x < 2 ^ 32) (hy : s.y < 2 ^ 32) (hz : s.z < 2 ^ 32) (hw : s.w < 2 ^ 32) :
    xorshiftStep s = xorshiftSpecStep s ∧
    ksOut s 0 = (xorshiftSpecStep s).w ∧
    (mkCipher t n).z = 521288629 ∧ (mkCipher t n).w = 88675123 := by
  have hstep : xorshiftStep s = xorshiftSpecStep s := by
    unfold xorshiftStep xorshiftSpecStep
    simp only [and_mask32, XState.mk.injEq, true_and]
    have ht : (s.x ^^^ s.x <<< 11) % 2 ^ 32 < 2 ^ 32 :=
      Nat.mod_lt _ (by norm_num)
    have hb : s.w ^^^ s.w >>> 19 ^^^
        ((s.x ^^^ s.x <<< 11) % 2 ^ 32 ^^^ ((s.x ^^^ s.x <<< 11) % 2 ^ 32) >>> 8)
        < 2 ^ 32 :=
      Nat.xor_lt_two_pow (Nat.xor_lt_two_pow hw (shiftRight_lt_two_pow hw))
        (Nat.xor_lt_two_pow ht (shiftRight_lt_two_pow ht))
    exact (Nat.mod_eq_of_lt hb).symm
  refine ⟨hstep, ?_, rfl, rfl⟩
  show (ksState s 1).w = _
  have : ksState s 1 = xorshiftStep s := rfl
  rw [this, hstep]

theorem xorshift_matches_reference_witness :
    ((123456789 : Nat) < 2 ^ 32 ∧ (362436069 : Nat) < 2 ^ 32 ∧
      (521288629 : Nat) < 2 ^ 32 ∧ (88675123 : Nat) < 2 ^ 32) ∧
    (xorshiftStep ⟨123456789, 362436069, 521288629, 88675123⟩ =
        xorshiftSpecStep ⟨123456789, 362436069, 521288629, 88675123⟩ ∧
      ksOut ⟨123456789, 362436069, 521288629, 88675123⟩ 0 =
        (xorshiftSpecStep ⟨123456789, 362436069, 521288629, 88675123⟩).w ∧
      (mkCipher 1 2).z = 521288629 ∧ (mkCipher 1 2).w = 88675123) :=
  ⟨⟨by norm_num, by norm_num, by norm_num, by norm_num⟩,
    xorshift_matches_reference ⟨123456789, 362436069, 521288629, 88675123⟩ 1 2
      (by norm_num) (by norm_num) (by norm_num) (by norm_num)⟩

theorem byte_roundtrip (c k : Nat) (hc : c < 256) :
    ((((((c : Int) + k) % 256).toNat : Int) - k) % 256).toNat = c := by
  omega

/-- C3: masking a payload by adding successive keystream bytes modulo 256 and
then unmasking it with a freshly constructed, identically seeded cipher by
subtracting successive keystream bytes modulo 256 restores the payload. -/
theorem mask_unmask_roundtrip (P : List Nat) (t n : Nat)
    (hP : ∀ b ∈ P, b < 256) :
    unmaskString (mkCipher t n) (maskString (mkCipher t n) P) = P := by
  have key : ∀ (l : List Nat) (s : XState), (∀ b ∈ l, b < 256) →
      unmaskString s (maskString s l) = l := by
    intro l
    induction l with
    | nil => intro s _; rfl
    | cons c cs ih =>
      intro s h
      simp only [maskString, unmaskString, applyStream]
      have htail := ih (xorshiftStep s) fun b hb => h b (List.mem_cons_of_mem _ hb)
      simp only [maskString, unmaskString, applyStream] at htail
      rw [htail, byte_roundtrip c (xorshiftStep s).w (h c (List.mem_cons_self c cs))]
  exact key P (mkCipher t n) hP

theorem mask_unmask_roundtrip_witness :
    (∀ b ∈ [104, 101, 108, 108, 111], b < 256) ∧
    unmaskString (mkCipher 5 7)
        (maskString (mkCipher 5 7) [104, 101, 108, 108, 111]) =
      [104, 101, 108, 108, 111] :=
  ⟨by decide, mask_unmask_roundtrip [104, 101, 108, 108, 111] 5 7 (by decide)⟩

/-- C4: on a container record payload whose sub-header is well formed, bytes
12-15 are unmasked with keystream outputs 0-3 of the cipher seeded
`(x = timestamp, y = original_length)`, bytes 16 onward are unmasked with
outputs 4 onward of the very same generator run (the cipher is not reset),
the unmasked 4 bytes are read as a big-endian value, and the decode fails
with `lengthMismatch` exactly when that value differs from the sub-header's
original length. -/
theorem gar_unmask_length_check (contents : List Nat)
    (h16 : 16 ≤ contents.length)
    (hh : beNat (contents.take 2) = 12)
    (hm : beNat ((contents.drop 2).take 2) = 1) :
    garDecodeRecord contents =
      if beNat ((contents.drop 8).take 4) =
          beNat (subKS
            (mkCipher (beNat ((contents.drop 4).take 4))
              (beNat ((contents.drop 8).take 4)))
            0 ((contents.drop 12).take 4))
      then Except.ok (subKS
            (mkCipher (beNat ((contents.drop 4).take 4))
              (beNat ((contents.drop 8).take 4)))
            4 (contents.drop 16))
      else Except.error GarError.lengthMismatch := by
  have hlen4 : ((contents.drop 12).take 4).length = 4 := by
    simp only [List.length_take, List.length_drop]
    omega
  unfold garDecodeRecord
  rw [if_neg (by omega : ¬ contents.length < 12)]
  simp only
  rw [if_pos ⟨hh, hm⟩, if_neg (by omega : ¬ contents.length < 16)]
  simp only [applyStream_sub_snd, applyStream_fst, hlen4]
  have h4 : subKS (ksState
      (mkCipher (beNat ((contents.drop 4).take 4)) (beNat ((contents.drop 8).take 4))) 4)
      0 (contents.drop 16) =
      subKS (mkCipher (beNat ((contents.drop 4).take 4)) (beNat ((contents.drop 8).take 4)))
        4 (contents.drop 16) := by
    rw [subKS_shift]
  rw [h4]

/-- Concrete record-payload bytes used to witness the C4 theorem. -/
def garWitnessContents : List Nat :=
  [0, 12, 0, 1, 0, 0, 0, 0, 0, 0, 0, 0, 0, 0, 0, 0]

theorem gar_unmask_length_check_witness :
    (16 ≤ garWitnessContents.length ∧
      beNat (garWitnessContents.take 2) = 12 ∧
      beNat ((garWitnessContents.drop 2).take 2) = 1) ∧
    garDecodeRecord garWitnessContents = Except.error GarError.lengthMismatch :=
  ⟨⟨by decide, by decide, by decide⟩,
    gar_unmask_length_check garWitnessContents (by decide) (by decide) (by decide)⟩

/-! ## portableappliancetest.py: the SSS telemetry stream decoder -/

/-- Field kinds supported by the `sdb` schema helper: fixed-width unsigned
integers and fixed-width text. -/
inductive FieldKind where
  | int
  | str
deriving DecidableEq

/-- Decoded field values.  Integers stay `Nat`, text is the byte list after
the `sdb` string clean-up, rescaled measurements are exact rationals,
pass/fail flags are booleans, and `label` covers the python string values
substituted by fixups (mapping meanings, the continuity no-result marker). -/
inductive FieldVal where
  | nat (n : Nat)
  | txt (s : List Nat)
  | rat (q : ℚ)
  | bool (b : Bool)
  | label (s : String)
deriving DecidableEq

/-- Decoding errors of the SSS parser.  `shortRead` stands for python
`struct.error` on an undersized buffer, `unknownTag` and `unknownEnumValue`
for the two `KeyError` sites, the others for the two `SSSSyntaxError`
raises in `parse_sss`. -/
inductive SSSError where
  | shortRead
  | zeroLengthPayload
  | checksumMismatch
  | unknownTag
  | unknownEnumValue
deriving DecidableEq

/-- Python `s.replace('\x00', '')`: delete every zero byte, at any
position. -/
def pyReplaceNull : List Nat → List Nat
  | [] => []
  | c :: cs => if c = 0 then pyReplaceNull cs else c :: pyReplaceNull cs

/-- Membership in python's `str.rstrip()` default whitespace set. -/
def isPySpace (c : Nat) : Bool :=
  c = 0x20 || c = 0x9 || c = 0xa || c = 0xb || c = 0xc || c = 0xd

/-- Python `s.rstrip()`: drop trailing whitespace characters. -/
def pyRstrip (l : List Nat) : List Nat :=
  (l.reverse.dropWhile isPySpace).reverse

/-- The string clean-up applied by `sdb.unpack` to every text field:
`u[0].replace('\x00', '').rstrip()`. -/
def textDecode (l : List Nat) : List Nat :=
  pyRstrip (pyReplaceNull l)

/-- `sdb.unpack`: decode the ordered field list against a byte buffer.
Integer fields of widths 1, 2 and 4 are big-endian (`>B`, `>H`, `>L`), text
fields keep their raw bytes and are then cleaned up.  Buffer sizing is
checked by the caller (`parse_sss` slices exactly `len(t)` bytes). -/
def unpackFields : List (String × FieldKind × Nat) → List Nat → List (String × FieldVal)
  | [], _ => []
  | (name, FieldKind.int, size) :: rest, bs =>
    (name, FieldVal.nat (beNat (bs.take size))) :: unpackFields rest (bs.drop size)
  | (name, FieldKind.str, size) :: rest, bs =>
    (name, FieldVal.txt (textDecode (bs.take size))) :: unpackFields rest (bs.drop size)

/-- Update the value stored under a key, keeping its position (python dict
assignment on an existing key of an `OrderedDict`). -/
def updateField (key : String) (v : FieldVal) :
    List (String × FieldVal) → List (String × FieldVal)
  | [] => []
  | (k, w) :: rest =>
    if k = key then (k, v) :: rest else (k, w) :: updateField key v rest

/-- `SSS.rescale`: split fixed-point decoding
`10 ** -(v >> 14) * (v & 0x3fff)`, taken over the exact rationals. -/
def rescaleVal (v : Nat) : ℚ :=
  (10 : ℚ) ^ (-((v >>> 14 : Nat) : ℤ)) * ((v &&& 0x3fff : Nat) : ℚ)

/-- Apply `SSS.rescale` to the named field (always present with a `nat`
value when the source calls it). -/
def rescaleField (key : String) (data : List (String × FieldVal)) :
    List (String × FieldVal) :=
  match List.lookup key data with
  | some (FieldVal.nat n) => updateField key (FieldVal.rat (rescaleVal n)) data
  | _ => data

/-- `SSS.passed`: the flag becomes `bool(raw == 1)`. -/
def passedField (key : String) (data : List (String × FieldVal)) :
    List (String × FieldVal) :=
  match List.lookup key data with
  | some (FieldVal.nat n) => updateField key (FieldVal.bool (n == 1)) data
  | _ => data

/-- `SSSPowerLeakTestv2.fixup` converts its flag with plain `bool(...)`:
any nonzero raw value becomes `True`. -/
def truthyField (key : String) (data : List (String × FieldVal)) :
    List (String × FieldVal) :=
  match List.lookup key data with
  | some (FieldVal.nat n) => updateField key (FieldVal.bool (n != 0)) data
  | _ => data

/-- `SSSUserDataMappingTest.mappings`. -/
def mappingLabel : Nat → Option String
  | 0 => some "Notes"
  | 1 => some "Asset Description"
  | 2 => some "Asset Group"
  | 3 => some "Make"
  | 4 => some "Model"
  | 5 => some "Serial No."
  | _ => none

/-- The `meaningN` entries appended by `SSSUserDataMappingTest.fixup`; an
unmapped code is python's `KeyError`. -/
def meaningEntries : List (String × FieldVal) → Except SSSError (List (String × FieldVal))
  | [] => .ok []
  | (k, FieldVal.nat v) :: rest =>
    match mappingLabel v with
    | none => .error .unknownEnumValue
    | some lab =>
      (meaningEntries rest).map
        (fun ms => ("meaning".append (k.takeRight 1), FieldVal.label lab) :: ms)
  | _ :: rest => meaningEntries rest

/-- The sub-record decoder classes of portableappliancetest.py. -/
inductive TestKind where
  | visual
  | noData
  | earthRes
  | earthResV2
  | earthIns
  | earthInsV2
  | current
  | currentV2
  | powerLeak
  | powerLeakV2
  | continuity
  | continuityV2
  | userDataMapping
  | retest
  | softwareVersion
  | userData
deriving DecidableEq

/-- The `fields` lists of the SSS sub-record classes, verbatim. -/
def kindFields : TestKind → List (String × FieldKind × Nat)
  | .visual =>
    [("id", .str, 16), ("hour", .int, 1), ("minute", .int, 1), ("day", .int, 1),
      ("month", .int, 1), ("year", .int, 2), ("site", .str, 16),
      ("location", .str, 16), ("tester", .str, 11), ("testcode1", .str, 10),
      ("testcode2", .str, 11)]
  | .noData => []
  | .earthRes => [("resistance", .int, 2)]
  | .earthResV2 => [("current", .int, 1), ("pass", .int, 1), ("resistance", .int, 2)]
  | .earthIns => [("resistance", .int, 2)]
  | .earthInsV2 => [("pass", .int, 1), ("resistance", .int, 2)]
  | .current => [("current", .int, 2)]
  | .currentV2 => [("pass", .int, 1), ("current", .int, 2)]
  | .powerLeak => [("leakage", .int, 2), ("load", .int, 2)]
  | .powerLeakV2 => [("pass", .int, 1), ("leakage", .int, 2), ("load", .int, 2)]
  | .continuity => [("resistance", .int, 2)]
  | .continuityV2 => [("pass", .int, 1), ("resistance", .int, 2)]
  | .userDataMapping =>
    [("mapping1", .int, 1), ("mapping2", .int, 1), ("mapping3", .int, 1),
      ("mapping4", .int, 1)]
  | .retest => [("nulls", .int, 1), ("unknown", .int, 1), ("frequency", .int, 1)]
  | .softwareVersion =>
    [("serialnumber", .str, 11), ("firmware1", .int, 1), ("firmware2", .int, 1),
      ("firmware3", .int, 1)]
  | .userData =>
    [("line1", .str, 21), ("line2", .str, 21), ("line3", .str, 21),
      ("line4", .str, 21)]

/-- `sdb.required_length`: total width of a schema in bytes. -/
def schemaWidth (k : TestKind) : Nat :=
  (kindFields k).foldl (fun a f => a + f.2.2) 0

/-- The continuity zero-sentinel: after rescaling, a resistance of exactly
zero is replaced by the `'(no result)'` string. -/
def continuityZero (data : List (String × FieldVal)) : List (String × FieldVal) :=
  match List.lookup "resistance" data with
  | some (FieldVal.rat q) =>
    if q = 0 then updateField "resistance" (FieldVal.label "(no result)") data
    else data
  | _ => data

/-- The `fixup` hooks of the SSS sub-record classes, in source order. -/
def fixupKind : TestKind → List (String × FieldVal) → Except SSSError (List (String × FieldVal))
  | .visual, d => .ok d
  | .noData, d => .ok d
  | .earthRes, d => .ok (rescaleField "resistance" d)
  | .earthResV2, d => .ok (passedField "pass" (rescaleField "resistance" d))
  | .earthIns, d => .ok (rescaleField "resistance" d)
  | .earthInsV2, d => .ok (passedField "pass" (rescaleField "resistance" d))
  | .current, d => .ok (rescaleField "current" d)
  | .currentV2, d => .ok (passedField "pass" (rescaleField "current" d))
  | .powerLeak, d => .ok (rescaleField "load" (rescaleField "leakage" d))
  | .powerLeakV2, d =>
    .ok (rescaleField "load" (rescaleField "leakage" (truthyField "pass" d)))
  | .continuity, d => .ok (continuityZero (rescaleField "resistance" d))
  | .continuityV2, d =>
    .ok (continuityZero (passedField "pass" (rescaleField "resistance" d)))
  | .userDataMapping, d => (meaningEntries d).map (fun ms => d ++ ms)
  | .retest, d => .ok d
  | .softwareVersion, d => .ok d
  | .userData, d => .ok d

/-- `SSS.unpack`: raw schema decode followed by the class `fixup`. -/
def decodeKind (k : TestKind) (bs : List Nat) :
    Except SSSError (List (String × FieldVal)) :=
  fixupKind k (unpackFields (kindFields k) bs)

/-- The `TestsVersion1` tag table. -/
def testsVersion1 : Nat → Option TestKind
  | 0x01 => some .visual
  | 0x02 => some .visual
  | 0x10 => some .noData
  | 0xe0 => some .userDataMapping
  | 0xe1 => some .retest
  | 0xf0 => some .noData
  | 0xf1 => some .noData
  | 0xf2 => some .earthRes
  | 0xf3 => some .earthIns
  | 0xf4 => some .current
  | 0xf5 => some .current
  | 0xf6 => some .powerLeak
  | 0xf7 => some .current
  | 0xf8 => some .continuity
  | 0xfb => some .userData
  | 0xfe => some .softwareVersion
  | 0xff => some .noData
  | _ => none

/-- The `TestsVersion2` tag table (the entries merged in by
`Tests.update(TestsVersion2)`). -/
def testsVersion2 : Nat → Option TestKind
  | 0x11 => some .visual
  | 0x12 => some .visual
  | 0xf2 => some .earthResV2
  | 0xf3 => some .earthInsV2
  | 0xf4 => some .currentV2
  | 0xf5 => some .currentV2
  | 0xf6 => some .powerLeakV2
  | 0xf7 => some .currentV2
  | 0xf8 => some .continuityV2
  | 0xf9 => some .noData
  | _ => none

/-- The active tag table: version 1 uses `TestsVersion1` alone, version 2
uses the copy updated with `TestsVersion2` (v2 entries shadow v1 ones). -/
def activeTests (version tag : Nat) : Option TestKind :=
  if version = 2 then
    match testsVersion2 tag with
    | some k => some k
    | none => testsVersion1 tag
  else testsVersion1 tag

/-- Body of the sub-record loop of `parse_sss`, structurally recursive on a
fuel counter.  Every iteration consumes at least the one tag byte, so
`payload.length` is always enough fuel and the zero-fuel fallback is never
reached from `dispatchSubRecords`.  Mirrors the source: take the tag byte,
upgrade to version 2 on 0x11/0x12, look the tag up in the active table
(`KeyError` for unknown tags), decode `len(t)` bytes (`struct.error` when
fewer remain), and stop after an 0xFF tag or when the payload is
exhausted. -/
def dispatchGo : Nat → Nat → List Nat →
    Except SSSError (Nat × List (Nat × List (String × FieldVal)))
  | _, version, [] => .ok (version, [])
  | 0, version, _ :: _ => .ok (version, [])
  | fuel + 1, version, tag :: rest =>
    let v := if version = 1 ∧ (tag = 0x11 ∨ tag = 0x12) then 2 else version
    match activeTests v tag with
    | none => .error .unknownTag
    | some kind =>
      let w := schemaWidth kind
      if rest.length < w then .error .shortRead
      else
        match decodeKind kind (rest.take w) with
        | .error e => .error e
        | .ok sub =>
          if tag = 0xff then .ok (v, [(tag, sub)])
          else
            match dispatchGo fuel v (rest.drop w) with
            | .error e => .error e
            | .ok p => .ok (p.1, (tag, sub) :: p.2)

/-- The sub-record loop of `parse_sss`, entered with the active version and
the record payload.  Returns the version in force after the record together
with the decoded `(tag, fields)` sequence. -/
def dispatchSubRecords (version : Nat) (payload : List Nat) :
    Except SSSError (Nat × List (Nat × List (String × FieldVal))) :=
  dispatchGo payload.length version payload

/-- One iteration of the record loop of `parse_sss`: unpack the 6-byte
header (`struct.error` when short), read the payload, raise on a zero
declared length, raise on a checksum mismatch (`sum(map(ord, payload)) &
0xffff` against the header field), then dispatch the sub-records with a
fresh version-1 tag table. -/
def processRecord (hdr payload : List Nat) :
    Except SSSError (List (Nat × List (String × FieldVal))) :=
  if hdr.length ≠ 6 then .error .shortRead
  else
    let payload_length := beNat (hdr.take 2)
    let checksum_header := beNat ((hdr.drop 4).take 2)
    let checksum_payload := (payload.foldl (fun a b => a + b) 0) &&& 0xffff
    if payload_length = 0 then .error .zeroLengthPayload
    else if checksum_header ≠ checksum_payload then .error .checksumMismatch
    else (dispatchSubRecords 1 payload).map (fun p => p.2)

/-- Record loop of `parse_sss` over a whole stream, fuel-structured like
`dispatchGo` (each record consumes at least its 6 header bytes).  A clean
end of input terminates the sequence; a 1-5 byte trailing fragment is a
`struct.error`. -/
def parseGo : Nat → List Nat →
    Except SSSError (List (List (Nat × List (String × FieldVal))))
  | _, [] => .ok []
  | 0, _ :: _ => .ok []
  | fuel + 1, b :: bs =>
    let stream := b :: bs
    if stream.length < 6 then .error .shortRead
    else
      let hdr := stream.take 6
      let payload := (stream.drop 6).take (beNat (hdr.take 2))
      match processRecord hdr payload with
      | .error e => .error e
      | .ok subs =>
        match parseGo fuel (stream.drop (6 + payload.length)) with
        | .error e => .error e
        | .ok rest => .ok (subs :: rest)

/-- `parse_sss` on a complete in-memory stream. -/
def parseSSS (stream : List Nat) :
    Except SSSError (List (List (Nat × List (String × FieldVal)))) :=
  parseGo stream.length stream

/-! ### Fuel irrelevance: the loops only ever need `length` fuel -/

theorem dispatchGo_congr :
    ∀ (f1 f2 version : Nat) (p : List Nat), p.length ≤ f1 → p.length ≤ f2 →
      dispatchGo f1 version p = dispatchGo f2 version p := by
  intro f1
  induction f1 with
  | zero =>
    intro f2 version p h1 _
    have hp : p = [] := List.eq_nil_of_length_eq_zero (Nat.le_zero.mp h1)
    subst hp
    cases f2 <;> rfl
  | succ f ih =>
    intro f2 version p h1 h2
    cases p with
    | nil => cases f2 <;> rfl
    | cons tag rest =>
      cases f2 with
      | zero => simp at h2
      | succ g =>
        simp only [dispatchGo]
        cases activeTests (if version = 1 ∧ (tag = 0x11 ∨ tag = 0x12) then 2
            else version) tag with
        | none => rfl
        | some kind =>
          simp only
          by_cases hw : rest.length < schemaWidth kind
          · rw [if_pos hw, if_pos hw]
          · rw [if_neg hw, if_neg hw]
            cases decodeKind kind (rest.take (schemaWidth kind)) with
            | error e => rfl
            | ok sub =>
              simp only
              by_cases ht : tag = 0xff
              · rw [if_pos ht, if_pos ht]
              · rw [if_neg ht, if_neg ht]
                have hd : (rest.drop (schemaWidth kind)).length ≤ f := by
                  simp only [List.length_drop]
                  simp only [List.length_cons] at h1
                  omega
                have hd2 : (rest.drop (schemaWidth kind)).length ≤ g := by
                  simp only [List.length_drop]
                  simp only [List.length_cons] at h2
                  omega
                rw [ih g (if version = 1 ∧ (tag = 0x11 ∨ tag = 0x12) then 2
                    else version) (rest.drop (schemaWidth kind)) hd hd2]

theorem parseGo_congr :
    ∀ (f1 f2 : Nat) (s : List Nat), s.length ≤ f1 → s.length ≤ f2 →
      parseGo f1 s = parseGo f2 s := by
  intro f1
  induction f1 with
  | zero =>
    intro f2 s h1 _
    have hs : s = [] := List.eq_nil_of_length_eq_zero (Nat.le_zero.mp h1)
    subst hs
    cases f2 <;> rfl
  | succ f ih =>
    intro f2 s h1 h2
    cases s with
    | nil => cases f2 <;> rfl
    | cons b bs =>
      cases f2 with
      | zero => simp at h2
      | succ g =>
        simp only [parseGo]
        by_cases h6 : (b :: bs).length < 6
        · rw [if_pos h6, if_pos h6]
        · rw [if_neg h6, if_neg h6]
          cases processRecord ((b :: bs).take 6)
              (((b :: bs).drop 6).take (beNat (((b :: bs).take 6).take 2))) with
          | error e => rfl
          | ok subs =>
            simp only
            have hd : ((b :: bs).drop (6 +
                (((b :: bs).drop 6).take (beNat (((b :: bs).take 6).take 2))).length)).length
                ≤ f := by
              simp only [List.length_drop, List.length_cons] at h1 ⊢
              omega
            have hd2 : ((b :: bs).drop (6 +
                (((b :: bs).drop 6).take (beNat (((b :: bs).take 6).take 2))).length)).length
                ≤ g := by
              simp only [List.length_drop, List.length_cons] at h2 ⊢
              omega
            rw [ih g _ hd hd2]

/-! ### Helper lemmas for the field-level claims -/

theorem beNat_one (v : Nat) : beNat [v] = v := by
  simp [beNat]

theorem beNat_two (a b : Nat) : beNat [a, b] = 256 * a + b := by
  simp [beNat]
  ring

theorem rescaleVal_x4000 : rescaleVal 0x4000 = 0 := by
  have h1 : (16384 : Nat) >>> 14 = 1 := rfl
  have h2 : (16384 : Nat) &&& 0x3fff = 0 := rfl
  simp [rescaleVal, h1, h2]

theorem rescaleVal_one : rescaleVal 0x0001 = 1 := by
  have h1 : (1 : Nat) >>> 14 = 0 := rfl
  have h2 : (1 : Nat) &&& 0x3fff = 1 := rfl
  simp [rescaleVal, h1, h2]

/-! ### Claim theorems for the field decoders -/

/-- C6: the split fixed-point rescale used by the resistance, current and
leakage decoders sends a raw 16-bit big-endian value `v` to
`10 ^ -(v >> 14) * (v & 0x3fff)`; raw `0x4000` rescales to 0 and raw
`0x0001` rescales to 1. -/
theorem rescale_split_fixed_point (b1 b2 b3 b4 : Nat) :
    decodeKind TestKind.earthRes [b1, b2] =
      .ok [("resistance", FieldVal.rat
        ((10 : ℚ) ^ (-((beNat [b1, b2] >>> 14 : Nat) : ℤ)) *
          ((beNat [b1, b2] &&& 0x3fff : Nat) : ℚ)))] ∧
    decodeKind TestKind.current [b1, b2] =
      .ok [("current", FieldVal.rat
        ((10 : ℚ) ^ (-((beNat [b1, b2] >>> 14 : Nat) : ℤ)) *
          ((beNat [b1, b2] &&& 0x3fff : Nat) : ℚ)))] ∧
    decodeKind TestKind.powerLeak [b1, b2, b3, b4] =
      .ok [("leakage", FieldVal.rat
        ((10 : ℚ) ^ (-((beNat [b1, b2] >>> 14 : Nat) : ℤ)) *
          ((beNat [b1, b2] &&& 0x3fff : Nat) : ℚ))),
        ("load", FieldVal.rat
        ((10 : ℚ) ^ (-((beNat [b3, b4] >>> 14 : Nat) : ℤ)) *
          ((beNat [b3, b4] &&& 0x3fff : Nat) : ℚ)))] ∧
    beNat [b1, b2] = 256 * b1 + b2 ∧
    rescaleVal 0x4000 = 0 ∧ rescaleVal 0x0001 = 1 :=
  ⟨rfl, rfl, rfl, beNat_two b1 b2, rescaleVal_x4000, rescaleVal_one⟩

/-- C7 counterexample: the version-2 Load/Leakage decoder (tag 0xF6) turns
the raw flag value 2 into `True`, although 2 ≠ 1; its `fixup` uses plain
truthiness instead of the `passed` comparison with 1. -/
theorem powerleak_v2_truthy_flag :
    decodeKind TestKind.powerLeakV2 [2, 0, 0, 0, 0] =
      .ok [("pass", FieldVal.bool true), ("leakage", FieldVal.rat (rescaleVal 0)),
        ("load", FieldVal.rat (rescaleVal 0))] ∧
    (2 : Nat) ≠ 1 :=
  ⟨rfl, by decide⟩

/-- C7 amended: the decoders that use the shared `passed` helper (the v2
earth-resistance, substitute/flash-leakage, earth-insulation and continuity
decoders) decode the flag as true exactly when the raw byte equals 1, while
the version-2 Load/Leakage decoder (tag 0xF6) instead decodes true for every
nonzero raw byte. -/
theorem pass_flag_decoding (v c b1 b2 b3 b4 : Nat) :
    (decodeKind TestKind.earthResV2 [c, v, b1, b2]).map (List.lookup "pass") =
      .ok (some (FieldVal.bool (v == 1))) ∧
    (decodeKind TestKind.currentV2 [v, b1, b2]).map (List.lookup "pass") =
      .ok (some (FieldVal.bool (v == 1))) ∧
    (decodeKind TestKind.earthInsV2 [v, b1, b2]).map (List.lookup "pass") =
      .ok (some (FieldVal.bool (v == 1))) ∧
    (decodeKind TestKind.continuityV2 [v, b1, b2]).map (List.lookup "pass") =
      .ok (some (FieldVal.bool (v == 1))) ∧
    (decodeKind TestKind.powerLeakV2 [v, b1, b2, b3, b4]).map (List.lookup "pass") =
      .ok (some (FieldVal.bool (v != 0))) := by
  refine ⟨?_, ?_, ?_, ?_, ?_⟩
  · have h : decodeKind TestKind.earthResV2 [c, v, b1, b2] =
        .ok [("current", FieldVal.nat (beNat [c])),
          ("pass", FieldVal.bool (beNat [v] == 1)),
          ("resistance", FieldVal.rat (rescaleVal (beNat [b1, b2])))] := rfl
    simp only [beNat_one] at h
    rw [h]
    rfl
  · have h : decodeKind TestKind.currentV2 [v, b1, b2] =
        .ok [("pass", FieldVal.bool (beNat [v] == 1)),
          ("current", FieldVal.rat (rescaleVal (beNat [b1, b2])))] := rfl
    rw [beNat_one] at h
    rw [h]
    rfl
  · have h : decodeKind TestKind.earthInsV2 [v, b1, b2] =
        .ok [("pass", FieldVal.bool (beNat [v] == 1)),
          ("resistance", FieldVal.rat (rescaleVal (beNat [b1, b2])))] := rfl
    rw [beNat_one] at h
    rw [h]
    rfl
  · have h : decodeKind TestKind.continuityV2 [v, b1, b2] =
        .ok (continuityZero [("pass", FieldVal.bool (beNat [v] == 1)),
          ("resistance", FieldVal.rat (rescaleVal (beNat [b1, b2])))]) := rfl
    rw [beNat_one] at h
    rw [h]
    rcases eq_or_ne (rescaleVal (beNat [b1, b2])) 0 with hq | hq
    · have h2 : continuityZero [("pass", FieldVal.bool (v == 1)),
          ("resistance", FieldVal.rat (rescaleVal (beNat [b1, b2])))] =
          updateField "resistance" (FieldVal.label "(no result)")
            [("pass", FieldVal.bool (v == 1)),
              ("resistance", FieldVal.rat (rescaleVal (beNat [b1, b2])))] := by
        show (if rescaleVal (beNat [b1, b2]) = 0
            then updateField "resistance" (FieldVal.label "(no result)")
              [("pass", FieldVal.bool (v == 1)),
                ("resistance", FieldVal.rat (rescaleVal (beNat [b1, b2])))]
            else [("pass", FieldVal.bool (v == 1)),
              ("resistance", FieldVal.rat (rescaleVal (beNat [b1, b2])))]) = _
        rw [if_pos hq]
      rw [h2]
      rfl
    · have h2 : continuityZero [("pass", FieldVal.bool (v == 1)),
          ("resistance", FieldVal.rat (rescaleVal (beNat [b1, b2])))] =
          [("pass", FieldVal.bool (v == 1)),
            ("resistance", FieldVal.rat (rescaleVal (beNat [b1, b2])))] := by
        show (if rescaleVal (beNat [b1, b2]) = 0
            then updateField "resistance" (FieldVal.label "(no result)")
              [("pass", FieldVal.bool (v == 1)),
                ("resistance", FieldVal.rat (rescaleVal (beNat [b1, b2])))]
            else [("pass", FieldVal.bool (v == 1)),
              ("resistance", FieldVal.rat (rescaleVal (beNat [b1, b2])))]) = _
        rw [if_neg hq]
      rw [h2]
      rfl
  · have h : decodeKind TestKind.powerLeakV2 [v, b1, b2, b3, b4] =
        .ok [("pass", FieldVal.bool (beNat [v] != 0)),
          ("leakage", FieldVal.rat (rescaleVal (beNat [b1, b2]))),
          ("load", FieldVal.rat (rescaleVal (beNat [b3, b4])))] := rfl
    rw [beNat_one] at h
    rw [h]
    rfl

/-- C8 counterexample: the Earth Insulation decoder reports raw `0x3fff`
(two bytes `0x3f 0xff`) as the uncapped rescaled value 16383, far above the
supposed 99.99 display cap, and the decoded record holds no second,
uncapped companion field — the capping statement in the source is commented
out. -/
theorem earth_insulation_uncapped :
    decodeKind TestKind.earthIns [0x3f, 0xff] =
      .ok [("resistance", FieldVal.rat (rescaleVal 16383))] ∧
    (99.99 : ℚ) < rescaleVal 16383 := by
  constructor
  · rfl
  · have h1 : (16383 : Nat) >>> 14 = 0 := rfl
    have h2 : (16383 : Nat) &&& 0x3fff = 16383 := rfl
    simp [rescaleVal, h1, h2]
    norm_num

/-- C8 amended: both Earth Insulation decoders apply only the fixed-point
rescale (plus the pass flag in v2); no clamping to 99.99 happens and the
decoded record carries no separate uncapped field. -/
theorem earth_insulation_rescale_only (p b1 b2 : Nat) :
    decodeKind TestKind.earthIns [b1, b2] =
      .ok [("resistance", FieldVal.rat (rescaleVal (beNat [b1, b2])))] ∧
    decodeKind TestKind.earthInsV2 [p, b1, b2] =
      .ok [("pass", FieldVal.bool (p == 1)),
        ("resistance", FieldVal.rat (rescaleVal (beNat [b1, b2])))] := by
  constructor
  · rfl
  · have h : decodeKind TestKind.earthInsV2 [p, b1, b2] =
        .ok [("pass", FieldVal.bool (beNat [p] == 1)),
          ("resistance", FieldVal.rat (rescaleVal (beNat [b1, b2])))] := rfl
    rw [beNat_one] at h
    exact h

/-- C9 counterexample: the version-2 Substitute Leakage decoder (tag 0xF4)
consumes exactly 3 bytes against 2 in version 1 — one extra byte only, and
that byte is decoded as the pass/fail flag (raw 7 gives `false`), not as a
repeat count preceding a separate flag; the version-2 visual tag 0x11 uses
the plain 86-byte visual layout with no repeat-count byte at all. -/
theorem v2_no_repeat_count_byte :
    schemaWidth TestKind.currentV2 = 3 ∧
    schemaWidth TestKind.current = 2 ∧
    decodeKind TestKind.currentV2 [7, 0, 5] =
      .ok [("pass", FieldVal.bool false), ("current", FieldVal.rat (rescaleVal 5))] ∧
    activeTests 2 0x11 = some TestKind.visual ∧
    schemaWidth TestKind.visual = 86 :=
  ⟨rfl, rfl, rfl, rfl, rfl⟩

/-- C9 amended: the version-2 variants of the measurement tags widen the
layout by a leading pass/fail flag byte (the earth-resistance variant by a
further leading 1-byte current field), with no repeat-count byte consumed,
and the version-2 visual tags reuse the version-1 86-byte layout
unchanged. -/
theorem v2_layout_adds_pass_flag :
    schemaWidth TestKind.earthRes = 2 ∧ schemaWidth TestKind.earthResV2 = 4 ∧
    schemaWidth TestKind.earthIns = 2 ∧ schemaWidth TestKind.earthInsV2 = 3 ∧
    schemaWidth TestKind.current = 2 ∧ schemaWidth TestKind.currentV2 = 3 ∧
    schemaWidth TestKind.powerLeak = 4 ∧ schemaWidth TestKind.powerLeakV2 = 5 ∧
    schemaWidth TestKind.continuity = 2 ∧ schemaWidth TestKind.continuityV2 = 3 ∧
    ((kindFields TestKind.earthResV2).map (fun f => f.1)).contains "pass" = true ∧
    ((kindFields TestKind.earthInsV2).map (fun f => f.1)).contains "pass" = true ∧
    ((kindFields TestKind.currentV2).map (fun f => f.1)).contains "pass" = true ∧
    ((kindFields TestKind.powerLeakV2).map (fun f => f.1)).contains "pass" = true ∧
    ((kindFields TestKind.continuityV2).map (fun f => f.1)).contains "pass" = true ∧
    ((kindFields TestKind.earthRes).map (fun f => f.1)).contains "pass" = false ∧
    ((kindFields TestKind.earthIns).map (fun f => f.1)).contains "pass" = false ∧
    ((kindFields TestKind.current).map (fun f => f.1)).contains "pass" = false ∧
    ((kindFields TestKind.powerLeak).map (fun f => f.1)).contains "pass" = false ∧
    ((kindFields TestKind.continuity).map (fun f => f.1)).contains "pass" = false ∧
    activeTests 2 0x11 = some TestKind.visual ∧
    activeTests 1 0x01 = some TestKind.visual ∧
    activeTests 2 0xf9 = some TestKind.noData ∧
    schemaWidth TestKind.visual = 86 ∧ schemaWidth TestKind.noData = 0 := by
  decide

/-- C10: every text field of every schema is decoded by deleting every zero
byte wherever it occurs and then stripping trailing whitespace; a buffer
with a zero byte between two printable runs decodes to the two runs
concatenated directly. -/
theorem text_fields_drop_all_zeros (name : String) (size : Nat)
    (rest : List (String × FieldKind × Nat)) (bs l : List Nat) :
    unpackFields ((name, FieldKind.str, size) :: rest) bs =
      (name, FieldVal.txt (textDecode (bs.take size))) ::
        unpackFields rest (bs.drop size) ∧
    textDecode l = pyRstrip (l.filter (fun c => c != 0)) ∧
    textDecode [97, 98, 0, 99, 100, 32, 32] = [97, 98, 99, 100] := by
  refine ⟨rfl, ?_, by decide⟩
  have hrepl : ∀ m : List Nat, pyReplaceNull m = m.filter (fun c => c != 0) := by
    intro m
    induction m with
    | nil => rfl
    | cons c cs ih =>
      by_cases hc : c = 0 <;> simp [pyReplaceNull, hc, ih]
  unfold textDecode
  rw [hrepl]

/-! ### The checksum gate (C5) -/

theorem and_mask16 (x : Nat) : x &&& 0xffff = x % 65536 := by
  have h := Nat.and_pow_two_sub_one_eq_mod x 16
  norm_num at h ⊢
  exact h

theorem meaningEntries_no_checksum (d : List (String × FieldVal)) :
    meaningEntries d ≠ Except.error SSSError.checksumMismatch := by
  induction d with
  | nil => simp [meaningEntries]
  | cons hd tl ih =>
    obtain ⟨k, val⟩ := hd
    cases val with
    | nat v =>
      simp only [meaningEntries]
      cases mappingLabel v with
      | none => simp
      | some lab =>
        simp only
        cases htl : meaningEntries tl with
        | error e =>
          simp only [Except.map]
          intro hcontra
          apply ih
          rw [htl]
          injection hcontra with he
          rw [he]
        | ok ms => simp [Except.map]
    | txt s => simpa [meaningEntries] using ih
    | rat q => simpa [meaningEntries] using ih
    | bool b => simpa [meaningEntries] using ih
    | label s => simpa [meaningEntries] using ih

theorem decodeKind_no_checksum (k : TestKind) (bs : List Nat) :
    decodeKind k bs ≠ Except.error SSSError.checksumMismatch := by
  cases k <;> simp only [decodeKind, fixupKind] <;> try simp
  intro hcontra
  cases hm : meaningEntries (unpackFields (kindFields TestKind.userDataMapping) bs) with
  | error e =>
    rw [hm] at hcontra
    simp only [Except.map] at hcontra
    injection hcontra with he
    exact meaningEntries_no_checksum
      (unpackFields (kindFields TestKind.userDataMapping) bs) (by rw [hm, he])
  | ok ms =>
    rw [hm] at hcontra
    simp [Except.map] at hcontra

theorem dispatchGo_no_checksum :
    ∀ (fuel version : Nat) (p : List Nat),
      dispatchGo fuel version p ≠ Except.error SSSError.checksumMismatch := by
  intro fuel
  induction fuel with
  | zero =>
    intro version p
    cases p <;> simp [dispatchGo]
  | succ f ih =>
    intro version p
    cases p with
    | nil => simp [dispatchGo]
    | cons tag rest =>
      simp only [dispatchGo]
      cases activeTests (if version = 1 ∧ (tag = 0x11 ∨ tag = 0x12) then 2
          else version) tag with
      | none => simp
      | some kind =>
        simp only
        split
        · simp
        · cases hdk : decodeKind kind (rest.take (schemaWidth kind)) with
          | error e =>
            simp only
            intro hcontra
            apply decodeKind_no_checksum kind (rest.take (schemaWidth kind))
            rw [hdk]
            injection hcontra with he
            rw [he]
          | ok sub =>
            simp only
            split
            · simp
            · cases hgo : dispatchGo f (if version = 1 ∧ (tag = 0x11 ∨ tag = 0x12)
                  then 2 else version) (rest.drop (schemaWidth kind)) with
              | error e =>
                simp only
                intro hcontra
                apply ih (if version = 1 ∧ (tag = 0x11 ∨ tag = 0x12) then 2
                  else version) (rest.drop (schemaWidth kind))
                rw [hgo]
                injection hcontra with he
                rw [he]
              | ok pr => simp

/-- C5: for a record whose header declares a nonzero payload length, the
decoder raises `checksumMismatch` exactly when the sum of the payload bytes
modulo 65536 differs from the header's 16-bit checksum field, and when the
two agree the record's payload is handed to the sub-record dispatcher. -/
theorem checksum_gate (hdr payload : List Nat)
    (hlen : hdr.length = 6) (hnz : beNat (hdr.take 2) ≠ 0) :
    (processRecord hdr payload = Except.error SSSError.checksumMismatch ↔
      (payload.foldl (fun a b => a + b) 0) % 65536 ≠ beNat ((hdr.drop 4).take 2)) ∧
    ((payload.foldl (fun a b => a + b) 0) % 65536 = beNat ((hdr.drop 4).take 2) →
      processRecord hdr payload = (dispatchSubRecords 1 payload).map (fun p => p.2)) := by
  have hre : processRecord hdr payload =
      if beNat ((hdr.drop 4).take 2) ≠ (payload.foldl (fun a b => a + b) 0) &&& 0xffff
      then Except.error SSSError.checksumMismatch
      else (dispatchSubRecords 1 payload).map (fun p => p.2) := by
    unfold processRecord
    rw [if_neg (by omega : ¬ hdr.length ≠ 6)]
    simp only
    rw [if_neg hnz]
  rw [hre, and_mask16]
  by_cases hc : (payload.foldl (fun a b => a + b) 0) % 65536 =
      beNat ((hdr.drop 4).take 2)
  · rw [if_neg (by omega : ¬ beNat ((hdr.drop 4).take 2) ≠
      (payload.foldl (fun a b => a + b) 0) % 65536)]
    constructor
    · constructor
      · intro hcontra
        exfalso
        cases hgo : dispatchSubRecords 1 payload with
        | error e =>
          rw [hgo] at hcontra
          simp only [Except.map] at hcontra
          apply dispatchGo_no_checksum payload.length 1 payload
          show dispatchSubRecords 1 payload = _
          rw [hgo]
          injection hcontra with he
          rw [he]
        | ok pr =>
          rw [hgo] at hcontra
          simp [Except.map] at hcontra
      · intro hcontra
        exact absurd hc hcontra
    · intro _
      rfl
  · rw [if_pos (by omega : beNat ((hdr.drop 4).take 2) ≠
      (payload.foldl (fun a b => a + b) 0) % 65536)]
    constructor
    · constructor
      · intro _
        exact hc
      · intro _
        rfl
    · intro hcontra
      exact absurd hcontra hc

/-- Concrete header and payload used to witness the C5 theorem. -/
def checksumWitnessHdr : List Nat := [0, 2, 0, 0, 1, 248]

/-- Payload for the C5 witness: one overall-pass v2-only tag would not match
here; these are the lead-continuity and end tags summing to 0x1f8. -/
def checksumWitnessPayload : List Nat := [0xf9, 0xff]

theorem checksum_gate_witness :
    (checksumWitnessHdr.length = 6 ∧ beNat (checksumWitnessHdr.take 2) ≠ 0) ∧
    ((processRecord checksumWitnessHdr checksumWitnessPayload =
        Except.error SSSError.checksumMismatch ↔
      (checksumWitnessPayload.foldl (fun a b => a + b) 0) % 65536 ≠
        beNat ((checksumWitnessHdr.drop 4).take 2)) ∧
    ((checksumWitnessPayload.foldl (fun a b => a + b) 0) % 65536 =
        beNat ((checksumWitnessHdr.drop 4).take 2) →
      processRecord checksumWitnessHdr checksumWitnessPayload =
        (dispatchSubRecords 1 checksumWitnessPayload).map (fun p => p.2))) :=
  ⟨⟨by decide, by decide⟩,
    checksum_gate checksumWitnessHdr checksumWitnessPayload (by decide) (by decide)⟩

/-! ### Version handling across records (C1) -/

/-- One unfolding step of the sub-record loop, with the recursive call
re-entered through `dispatchSubRecords`. -/
theorem dispatchSubRecords_cons (version tag : Nat) (rest : List Nat) :
    dispatchSubRecords version (tag :: rest) =
      (match activeTests (if version = 1 ∧ (tag = 0x11 ∨ tag = 0x12) then 2
          else version) tag with
       | none => Except.error SSSError.unknownTag
       | some kind =>
         if rest.length < schemaWidth kind then Except.error SSSError.shortRead
         else
           match decodeKind kind (rest.take (schemaWidth kind)) with
           | .error e => .error e
           | .ok sub =>
             if tag = 0xff then
               .ok ((if version = 1 ∧ (tag = 0x11 ∨ tag = 0x12) then 2
                 else version), [(tag, sub)])
             else
               match dispatchSubRecords (if version = 1 ∧ (tag = 0x11 ∨ tag = 0x12)
                   then 2 else version) (rest.drop (schemaWidth kind)) with
               | .error e => .error e
               | .ok p => .ok (p.1, (tag, sub) :: p.2)) := by
  show dispatchGo (tag :: rest).length version (tag :: rest) = _
  simp only [List.length_cons]
  simp only [dispatchGo]
  cases activeTests (if version = 1 ∧ (tag = 0x11 ∨ tag = 0x12) then 2
      else version) tag with
  | none => rfl
  | some kind =>
    simp only
    split
    · rfl
    · cases decodeKind kind (rest.take (schemaWidth kind)) with
      | error e => rfl
      | ok sub =>
        simp only
        split
        · rfl
        · rw [dispatchGo_congr rest.length (rest.drop (schemaWidth kind)).length
            (if version = 1 ∧ (tag = 0x11 ∨ tag = 0x12) then 2 else version)
            (rest.drop (schemaWidth kind))
            (by simp only [List.length_drop]; omega) (le_refl _)]
          rfl

/-- One unfolding step of the record loop, with the recursive call
re-entered through `parseSSS`. -/
theorem parseSSS_step (s : List Nat) (h6 : 6 ≤ s.length) :
    parseSSS s =
      (match processRecord (s.take 6)
          ((s.drop 6).take (beNat ((s.take 6).take 2))) with
       | .error e => .error e
       | .ok subs =>
         match parseSSS (s.drop (6 +
             ((s.drop 6).take (beNat ((s.take 6).take 2))).length)) with
         | .error e => .error e
         | .ok rest => .ok (subs :: rest)) := by
  cases s with
  | nil => simp at h6
  | cons b bs =>
    show parseGo (b :: bs).length (b :: bs) = _
    simp only [List.length_cons]
    simp only [parseGo]
    rw [if_neg (by simp only [List.length_cons] at h6 ⊢; omega)]
    cases processRecord ((b :: bs).take 6)
        (((b :: bs).drop 6).take (beNat (((b :: bs).take 6).take 2))) with
    | error e => rfl
    | ok subs =>
      simp only
      rw [parseGo_congr bs.length
        ((b :: bs).drop (6 +
          (((b :: bs).drop 6).take (beNat (((b :: bs).take 6).take 2))).length)).length
        ((b :: bs).drop (6 +
          (((b :: bs).drop 6).take (beNat (((b :: bs).take 6).take 2))).length))
        (by simp only [List.length_drop, List.length_cons]; omega) (le_refl _)]
      rfl

/-- Concrete two-record telemetry stream: record 1 is a version-2
visual-pass sub-record (tag 0x11, 86 zero bytes) followed by the end tag;
record 2 holds the version-2-only tag 0xF9 followed by the end tag.  Both
record headers carry correct lengths and checksums. -/
def c1Stream : List Nat :=
  [0, 88, 0, 0, 1, 16] ++ (0x11 :: (List.replicate 86 0 ++ [0xff])) ++
    ([0, 2, 0, 0, 1, 248] ++ [0xf9, 0xff])

/-- C1 counterexample: after a record containing the version-2 tag 0x11, the
next record's version-2-only tag 0xF9 still raises `unknownTag`, because the
tag table is rebuilt from version 1 for every record; the same payload would
decode fine had the version-2 table been kept. -/
theorem version_upgrade_not_stream_global :
    parseSSS c1Stream = Except.error SSSError.unknownTag ∧
    dispatchSubRecords 1 [0xf9, 0xff] = Except.error SSSError.unknownTag ∧
    dispatchSubRecords 2 [0xf9, 0xff] =
      Except.ok (2, [(0xf9, []), (0xff, [])]) :=
  ⟨rfl, rfl, rfl⟩

/-- C1 amended: the version upgrade is monotonic only within a single
record.  Inside a record, the first 0x11 tag switches the dispatcher to the
version-2 table for the record's remaining sub-records; but the record loop
restarts every record's dispatch at version 1, and the continuation of the
stream is parsed independently of any version reached earlier. -/
theorem version_upgrade_record_local
    (body rest hdr pl tail : List Nat)
    (hbody : body.length = 86)
    (hhdr : hdr.length = 6)
    (hpl : beNat (hdr.take 2) = pl.length)
    (hnz : pl.length ≠ 0)
    (hck : beNat ((hdr.drop 4).take 2) =
      (pl.foldl (fun a b => a + b) 0) &&& 0xffff) :
    dispatchSubRecords 1 (0x11 :: (body ++ rest)) =
      (match dispatchSubRecords 2 rest with
       | .error e => .error e
       | .ok p => .ok (p.1,
           (0x11, unpackFields (kindFields TestKind.visual) body) :: p.2)) ∧
    parseSSS (hdr ++ (pl ++ tail)) =
      (match (dispatchSubRecords 1 pl).map (fun p => p.2) with
       | .error e => .error e
       | .ok subs =>
         match parseSSS tail with
         | .error e => .error e
         | .ok rs => .ok (subs :: rs)) := by
  constructor
  · rw [dispatchSubRecords_cons]
    rw [if_pos (by norm_num : (1 : Nat) = 1 ∧ ((0x11 : Nat) = 0x11 ∨ (0x11 : Nat) = 0x12))]
    rw [show activeTests 2 0x11 = some TestKind.visual from rfl]
    simp only
    rw [if_neg (by
      simp only [List.length_append, hbody]
      show ¬ 86 + rest.length < schemaWidth TestKind.visual
      rw [show schemaWidth TestKind.visual = 86 from rfl]
      omega)]
    rw [show schemaWidth TestKind.visual = 86 from rfl]
    rw [List.take_left' hbody, List.drop_left' hbody]
    rw [show decodeKind TestKind.visual body =
      Except.ok (unpackFields (kindFields TestKind.visual) body) from rfl]
    simp only
    rw [if_neg (by norm_num : ¬ (0x11 : Nat) = 0xff)]
  · rw [parseSSS_step (hdr ++ (pl ++ tail)) (by
      simp only [List.length_append, hhdr]
      omega)]
    rw [List.take_left' hhdr, List.drop_left' hhdr]
    rw [hpl, List.take_left' rfl]
    have hpr : processRecord hdr pl = (dispatchSubRecords 1 pl).map (fun p => p.2) := by
      unfold processRecord
      rw [if_neg (by omega : ¬ hdr.length ≠ 6)]
      simp only
      rw [if_neg (by rw [hpl]; exact hnz)]
      rw [if_neg (by rw [hck]; exact fun hcon => hcon rfl)]
    rw [hpr]
    rw [show hdr ++ (pl ++ tail) = (hdr ++ pl) ++ tail from (List.append_assoc hdr pl tail).symm]
    rw [List.drop_left' (by simp [List.length_append, hhdr] : (hdr ++ pl).length = 6 + pl.length)]

theorem version_upgrade_record_local_witness :
    ((List.replicate 86 0).length = 86 ∧
      ([0, 2, 0, 0, 1, 248] : List Nat).length = 6 ∧
      beNat (([0, 2, 0, 0, 1, 248] : List Nat).take 2) =
        ([0xf9, 0xff] : List Nat).length ∧
      ([0xf9, 0xff] : List Nat).length ≠ 0 ∧
      beNat ((([0, 2, 0, 0, 1, 248] : List Nat).drop 4).take 2) =
        (([0xf9, 0xff] : List Nat).foldl (fun a b => a + b) 0) &&& 0xffff) ∧
    (dispatchSubRecords 1 (0x11 :: (List.replicate 86 0 ++ [0xff])) =
        Except.ok (2, [(0x11,
          [("id", FieldVal.txt []), ("hour", FieldVal.nat 0),
            ("minute", FieldVal.nat 0), ("day", FieldVal.nat 0),
            ("month", FieldVal.nat 0), ("year", FieldVal.nat 0),
            ("site", FieldVal.txt []), ("location", FieldVal.txt []),
            ("tester", FieldVal.txt []), ("testcode1", FieldVal.txt []),
            ("testcode2", FieldVal.txt [])]), (0xff, [])]) ∧
      parseSSS (([0, 2, 0, 0, 1, 248] : List Nat) ++ ([0xf9, 0xff] ++ [])) =
        Except.error SSSError.unknownTag) :=
  ⟨⟨by decide, by decide, by decide, by decide, by decide⟩,
    version_upgrade_record_local (List.replicate 86 0) [0xff]
      [0, 2, 0, 0, 1, 248] [0xf9, 0xff] []
      (by decide) (by decide) (by decide) (by decide) (by decide)⟩

end Pat
